import Mathlib

/-!
Verification of the getip edge service's rate limiting and request routing.

The router (the Worker's `fetch` handler) is embedded from `src/index.ts`.
The rate limiter itself is the Cloudflare Workers rate-limiting binding
(`env.IP_RATE_LIMITER.limit`), which is not part of the repository's sources;
it is modelled from the specification's `CheckAndRecord` operation
(fixed-window counting, `LIMIT = 60` requests per `WINDOW = 60` seconds,
windows aligned to `now - (now mod WINDOW)`).  Response builders and header
extraction (`createResponse.ts`, `getHeaders.ts`) are likewise modelled from
the specification, the README and the type declarations.

Timestamps are natural numbers counting milliseconds since the Unix epoch.
-/

namespace GetIp

/-- Configuration constant: maximum allowed requests per window (spec §6). -/
def LIMIT : Nat := 60

/-- Configuration constant: window length in seconds (spec §6). -/
def WINDOW : Nat := 60

/-- The window length in milliseconds. -/
def WINDOW_MS : Nat := WINDOW * 1000

/-- Per-key counter state of the rate limiter (spec §3 `WindowState`). -/
structure WindowState where
  count : Nat
  windowStart : Nat
deriving Repr, DecidableEq

/-- Result value of a rate-limit check (spec §3 `RateLimitDecision`).
`retryAfterSeconds` is meaningful only when `allowed` is `false`. -/
structure RateLimitDecision where
  allowed : Bool
  retryAfterSeconds : Nat
deriving Repr, DecidableEq

/-- The limiter's keyed store: per-key window state, created lazily. -/
abbrev LimiterState := String → Option WindowState

/-- Start of the fixed window containing `now`: `now - (now mod WINDOW)`,
in milliseconds (spec §4.1). -/
def windowStartOf (now : Nat) : Nat := now - now % WINDOW_MS

/-- The count currently on record for `key` in the window starting at `ws`:
the stored count if the stored window is the current one, else 0
(a missing or stale entry counts as a reset). -/
def curCount (st : LimiterState) (key : String) (ws : Nat) : Nat :=
  match st key with
  | some w => if w.windowStart = ws then w.count else 0
  | none => 0

/-- Modelled from the spec: the rate limiter's `CheckAndRecord(key, now)`
operation (spec §4.1).  The actual limiter is the Cloudflare Workers binding
`env.IP_RATE_LIMITER` configured for 60 requests per 60 seconds, whose code is
not in the repository.  Fixed-window counting: compute the window start,
reset a missing or stale entry, increment the count as part of the same
atomic check, allow iff the new count is at most `LIMIT`, and on denial
report the seconds remaining until the window ends, rounded up. -/
def checkAndRecord (key : String) (now : Nat) (st : LimiterState) :
    RateLimitDecision × LimiterState :=
  let ws := windowStartOf now
  let c := curCount st key ws + 1
  let st' : LimiterState := fun k => if k = key then some ⟨c, ws⟩ else st k
  if c ≤ LIMIT then (⟨true, 0⟩, st')
  else (⟨false, (ws + WINDOW_MS - now + 999) / 1000⟩, st')

/-- Run a sequence of `checkAndRecord` calls for one key at the given times,
returning the list of decisions and the final state. -/
def runCalls (key : String) : List Nat → LimiterState → List RateLimitDecision × LimiterState
  | [], st => ([], st)
  | t :: rest, st =>
    let r := checkAndRecord key t st
    let rs := runCalls key rest r.2
    (r.1 :: rs.1, rs.2)

/-- Number of allowed decisions in a list. -/
def countAllowed (ds : List RateLimitDecision) : Nat :=
  (ds.filter (fun d => d.allowed)).length

/-- Number of denied decisions in a list. -/
def countDenied (ds : List RateLimitDecision) : Nat :=
  (ds.filter (fun d => !d.allowed)).length

/-- Run a mixed sequence of calls (key, time) against the limiter, returning
the keyed log of decisions and the final state. -/
def runSeq : List (String × Nat) → LimiterState → List (String × RateLimitDecision) × LimiterState
  | [], st => ([], st)
  | c :: rest, st =>
    let r := checkAndRecord c.1 c.2 st
    let rs := runSeq rest r.2
    ((c.1, r.1) :: rs.1, rs.2)

/-- The decisions a given key received, in order, from a keyed decision log. -/
def decisionsFor (key : String) (log : List (String × RateLimitDecision)) :
    List RateLimitDecision :=
  (log.filter (fun e => e.1 == key)).map Prod.snd

/-- The subsequence of a call sequence addressed to a given key. -/
def callsFor (key : String) (seq : List (String × Nat)) : List (String × Nat) :=
  seq.filter (fun c => c.1 == key)

/-- A limiter store with no entries (service start). -/
def emptyStore : LimiterState := fun _ => none

/-- A concrete limiter store in which key "1.2.3.4" already has sixty
requests recorded in the window starting at time 0. -/
def fullWindowStore : LimiterState :=
  fun k => if k = "1.2.3.4" then some ⟨60, 0⟩ else none

/-- A concrete interleaving of calls for the two keys "a" and "b". -/
def mixedSeq : List (String × Nat) := [("a", 0), ("b", 5), ("a", 10)]

/-- An incoming HTTP request as the Worker's `fetch` handler sees it.  Header
extraction (`getHeaders.ts`, not under `src/`) is abstracted: the
`extractedIp` / `extractedCountry` / `extractedCity` / `extractedRegion`
fields hold the values its extraction functions would return. -/
structure WorkerRequest where
  method : String
  path : String
  extractedIp : Option String
  extractedCountry : Option String
  extractedCity : Option String
  extractedRegion : Option String
deriving Repr, DecidableEq

/-- Modelled from the spec: `getClientIp` of `getHeaders.ts` (not under
`src/`) derives the client IP from the headers with the README's priority
order; its result is carried by the request's `extractedIp` field. -/
def getClientIp (r : WorkerRequest) : Option String := r.extractedIp

/-- Modelled from the spec: `getCountry` of `getHeaders.ts` (not under `src/`). -/
def getCountry (r : WorkerRequest) : Option String := r.extractedCountry

/-- Modelled from the spec: `getCity` of `getHeaders.ts` (not under `src/`). -/
def getCity (r : WorkerRequest) : Option String := r.extractedCity

/-- Modelled from the spec: `getRegion` of `getHeaders.ts` (not under `src/`). -/
def getRegion (r : WorkerRequest) : Option String := r.extractedRegion

/-- JavaScript truthiness of a `string | null` value: `null` and the empty
string are falsy (the guard `if (ip)` in `src/index.ts`). -/
def jsTruthy : Option String → Bool
  | none => false
  | some s => s != ""

/-- The character for the decimal digit `n % 10`. -/
def digitChar (n : Nat) : Char := Char.ofNat (48 + n % 10)

/-- Two-digit zero-padded decimal rendering (modulo 100). -/
def pad2 (n : Nat) : List Char := [digitChar (n / 10), digitChar n]

/-- Three-digit zero-padded decimal rendering (modulo 1000). -/
def pad3 (n : Nat) : List Char := [digitChar (n / 100), digitChar (n / 10), digitChar n]

/-- Four-digit zero-padded decimal rendering (modulo 10000). -/
def pad4 (n : Nat) : List Char :=
  [digitChar (n / 1000), digitChar (n / 100), digitChar (n / 10), digitChar n]

/-- Gregorian calendar date (year, month, day) of the day that is `z` days
after 1970-01-01, by the standard era/day-of-era computation. -/
def civilFromDays (z : Nat) : Nat × Nat × Nat :=
  let days := z + 719468
  let era := days / 146097
  let doe := days % 146097
  let yoe := (doe - doe / 1460 + doe / 36524 - doe / 146096) / 365
  let y := yoe + era * 400
  let doy := doe - (365 * yoe + yoe / 4 - yoe / 100)
  let mp := (5 * doy + 2) / 153
  let d := doy - (153 * mp + 2) / 5 + 1
  let m := if mp < 10 then mp + 3 else mp - 9
  (if m ≤ 2 then y + 1 else y, m, d)

/-- Modelled from the spec: the response builders' ISO-8601 UTC timestamp
(`new Date().toISOString()` in `createResponse.ts`, not under `src/`),
rendering `ms` milliseconds since the Unix epoch as
`YYYY-MM-DDTHH:mm:ss.sssZ`. -/
def toISOString (ms : Nat) : String :=
  let msec := ms % 1000
  let s := ms / 1000 % 60
  let mi := ms / 60000 % 60
  let h := ms / 3600000 % 24
  let ymd := civilFromDays (ms / 86400000)
  String.mk (pad4 ymd.1 ++ ['-'] ++ pad2 ymd.2.1 ++ ['-'] ++ pad2 ymd.2.2 ++ ['T'] ++
    pad2 h ++ [':'] ++ pad2 mi ++ [':'] ++ pad2 s ++ ['.'] ++ pad3 msec ++ ['Z'])

/-- Whether `sub` occurs as a contiguous substring of `s`. -/
def containsSubstr (s sub : String) : Bool :=
  (List.range (s.length + 1)).any
    (fun i => (s.toList.drop i).take sub.length == sub.toList)

/-- Body of an HTTP response, following the repository's response type
declarations: `IpResponse` (ip plus location fields and a timestamp),
`ErrorResponse` (`error` message and timestamp), `DebugResponse`. -/
inductive ResponseBody where
  | ipSuccess (ip country city region : Option String) (timestamp : String)
  | errorBody (error : String) (timestamp : String)
  | debugInfo (timestamp : String)
  | empty
deriving Repr, DecidableEq

/-- An HTTP response: status plus the headers and body the claims talk
about. -/
structure HttpResponse where
  status : Nat
  accessControlAllowOrigin : Option String
  contentType : Option String
  retryAfter : Option Nat
  body : ResponseBody
deriving Repr, DecidableEq

/-- Modelled from the spec: `handleOptions` of `createResponse.ts` (not under
`src/`) answers a CORS preflight with no body and the CORS header. -/
def handleOptions : HttpResponse :=
  { status := 204
    accessControlAllowOrigin := some "*"
    contentType := none
    retryAfter := none
    body := .empty }

/-- Modelled from the spec: `createMethodNotAllowedResponse` of
`createResponse.ts` (not under `src/`); message and status from the README. -/
def createMethodNotAllowedResponse (now : Nat) : HttpResponse :=
  { status := 405
    accessControlAllowOrigin := some "*"
    contentType := some "application/json"
    retryAfter := none
    body := .errorBody "Method not allowed. Only GET requests are supported."
      (toISOString now) }

/-- Modelled from the spec: `createNotFoundResponse` of `createResponse.ts`
(not under `src/`); message and status from the README. -/
def createNotFoundResponse (now : Nat) : HttpResponse :=
  { status := 404
    accessControlAllowOrigin := some "*"
    contentType := some "application/json"
    retryAfter := none
    body := .errorBody "Not found. Only root path (/) is available."
      (toISOString now) }

/-- Modelled from the spec: `createDebugResponse` of `createResponse.ts`
(not under `src/`), answering `/debug` with headers and platform metadata. -/
def createDebugResponse (now : Nat) : HttpResponse :=
  { status := 200
    accessControlAllowOrigin := some "*"
    contentType := some "application/json"
    retryAfter := none
    body := .debugInfo (toISOString now) }

/-- Modelled from the spec: `createRateLimitResponse` of `createResponse.ts`
(not under `src/`).  Per the README it returns HTTP 429, the error message
naming the limit, and a constant `Retry-After: 60` header. -/
def createRateLimitResponse (limit : Nat) (now : Nat) : HttpResponse :=
  { status := 429
    accessControlAllowOrigin := some "*"
    contentType := some "application/json"
    retryAfter := some 60
    body := .errorBody
      ("Rate limit exceeded. Maximum " ++ toString limit ++
        " requests per minute allowed.")
      (toISOString now) }

/-- Modelled from the spec: `createIpSuccessResponse` of `createResponse.ts`
(not under `src/`), the 200 success payload with the extracted fields. -/
def createIpSuccessResponse (ip country city region : Option String)
    (now : Nat) : HttpResponse :=
  { status := 200
    accessControlAllowOrigin := some "*"
    contentType := some "application/json"
    retryAfter := none
    body := .ipSuccess ip country city region (toISOString now) }

/-- Result of one invocation of the Worker's `fetch` handler: the response,
the limiter store afterwards, and how many limiter calls were made. -/
structure FetchResult where
  response : HttpResponse
  state : LimiterState
  limiterCalls : Nat

/-- The Worker's `fetch` handler, embedded from `src/index.ts`: CORS
preflight, method check, `/debug`, root-path check, IP extraction, then —
only when the extracted IP is truthy — one rate-limiter call whose failure
yields `createRateLimitResponse(60)`, and otherwise the success response. -/
def fetch (r : WorkerRequest) (now : Nat) (st : LimiterState) : FetchResult :=
  if r.method = "OPTIONS" then ⟨handleOptions, st, 0⟩
  else if r.method ≠ "GET" then ⟨createMethodNotAllowedResponse now, st, 0⟩
  else if r.path = "/debug" then ⟨createDebugResponse now, st, 0⟩
  else if r.path ≠ "/" then ⟨createNotFoundResponse now, st, 0⟩
  else
    let ip := getClientIp r
    if jsTruthy ip then
      let res := checkAndRecord (ip.getD "") now st
      if res.1.allowed then
        ⟨createIpSuccessResponse ip (getCountry r) (getCity r) (getRegion r) now, res.2, 1⟩
      else
        ⟨createRateLimitResponse 60 now, res.2, 1⟩
    else
      ⟨createIpSuccessResponse ip (getCountry r) (getCity r) (getRegion r) now, st, 0⟩

/-- A concrete GET request to the root path from IP "1.2.3.4". -/
def sampleGetRequest : WorkerRequest :=
  ⟨"GET", "/", some "1.2.3.4", some "ID", none, none⟩

/-- A concrete GET request to the root path whose extracted key is the empty
string (failing the spec's key-validity constraint). -/
def emptyKeyRequest : WorkerRequest :=
  ⟨"GET", "/", some "", none, none, none⟩

/-- A concrete GET request to the root path with no extractable client IP. -/
def nullIpRequest : WorkerRequest :=
  ⟨"GET", "/", none, none, none, none⟩

/-- A concrete CORS preflight request. -/
def optionsRequest : WorkerRequest :=
  ⟨"OPTIONS", "/", some "1.2.3.4", none, none, none⟩

end GetIp

namespace GetIp

theorem checkAndRecord_fst (key : String) (now : Nat) (st : LimiterState) :
    (checkAndRecord key now st).1 =
      if curCount st key (windowStartOf now) + 1 ≤ LIMIT then ⟨true, 0⟩
      else ⟨false, (windowStartOf now + WINDOW_MS - now + 999) / 1000⟩ := by
  by_cases h : curCount st key (windowStartOf now) + 1 ≤ LIMIT <;>
    simp [checkAndRecord, h]

theorem checkAndRecord_snd (key : String) (now : Nat) (st : LimiterState) :
    (checkAndRecord key now st).2 = fun k =>
      if k = key then
        some ⟨curCount st key (windowStartOf now) + 1, windowStartOf now⟩
      else st k := by
  by_cases h : curCount st key (windowStartOf now) + 1 ≤ LIMIT <;>
    simp [checkAndRecord, h]

theorem checkAndRecord_snd_self (key : String) (now : Nat) (st : LimiterState) :
    (checkAndRecord key now st).2 key =
      some ⟨curCount st key (windowStartOf now) + 1, windowStartOf now⟩ := by
  rw [checkAndRecord_snd]; simp

theorem checkAndRecord_snd_frame (key k : String) (now : Nat) (st : LimiterState)
    (h : k ≠ key) : (checkAndRecord key now st).2 k = st k := by
  rw [checkAndRecord_snd]; simp [h]

theorem checkAndRecord_allowed (key : String) (now : Nat) (st : LimiterState) :
    (checkAndRecord key now st).1.allowed =
      decide (curCount st key (windowStartOf now) + 1 ≤ LIMIT) := by
  rw [checkAndRecord_fst]
  by_cases h : curCount st key (windowStartOf now) + 1 ≤ LIMIT <;> simp [h]

theorem curCount_after_call (key : String) (now : Nat) (st : LimiterState)
    (ws : Nat) (hws : windowStartOf now = ws) :
    curCount (checkAndRecord key now st).2 key ws = curCount st key ws + 1 := by
  rw [checkAndRecord_snd]
  simp [curCount, hws]

theorem countAllowed_nil : countAllowed [] = 0 := rfl

theorem countAllowed_cons (d : RateLimitDecision) (ds : List RateLimitDecision) :
    countAllowed (d :: ds) = (if d.allowed then 1 else 0) + countAllowed ds := by
  by_cases h : d.allowed <;> simp [countAllowed, List.filter_cons, h]
  omega

theorem countAllowed_add_countDenied (ds : List RateLimitDecision) :
    countAllowed ds + countDenied ds = ds.length := by
  induction ds with
  | nil => rfl
  | cons d rest ih =>
    by_cases h : d.allowed <;>
      · simp [countAllowed, countDenied, List.filter_cons, h] at *
        omega

theorem runCalls_length (key : String) (ts : List Nat) (st : LimiterState) :
    (runCalls key ts st).1.length = ts.length := by
  induction ts generalizing st with
  | nil => rfl
  | cons t rest ih => simp [runCalls, ih]

/-- Core counting invariant: a run of calls whose times all fall in the window
starting at `ws` admits exactly `min N (LIMIT - c)` of its `N` calls, where
`c` is the count already on record for the key in that window. -/
theorem countAllowed_runCalls (key : String) (ws : Nat) :
    ∀ (ts : List Nat) (st : LimiterState), (∀ t ∈ ts, windowStartOf t = ws) →
      countAllowed (runCalls key ts st).1 =
        min ts.length (LIMIT - curCount st key ws) := by
  intro ts
  induction ts with
  | nil => intro st _; simp [runCalls, countAllowed]
  | cons t rest ih =>
    intro st hts
    have hws : windowStartOf t = ws := hts t (by simp)
    have hrest : ∀ u ∈ rest, windowStartOf u = ws := fun u hu => hts u (by simp [hu])
    have hstep := ih (checkAndRecord key t st).2 hrest
    rw [curCount_after_call key t st ws hws] at hstep
    have hcons : runCalls key (t :: rest) st =
        ((checkAndRecord key t st).1 :: (runCalls key rest (checkAndRecord key t st).2).1,
         (runCalls key rest (checkAndRecord key t st).2).2) := rfl
    rw [hcons]
    simp only [countAllowed_cons, hstep, checkAndRecord_allowed, hws, List.length_cons]
    by_cases h : curCount st key ws + 1 ≤ LIMIT <;> simp [h] <;> omega

/-- Positional invariant: the `i`-th decision (0-indexed) of a run within one
window is allowed exactly when the count already on record plus `i` is still
below the limit. -/
theorem map_allowed_runCalls (key : String) (ws : Nat) :
    ∀ (ts : List Nat) (st : LimiterState), (∀ t ∈ ts, windowStartOf t = ws) →
      (runCalls key ts st).1.map RateLimitDecision.allowed =
        (List.range ts.length).map
          (fun i => decide (curCount st key ws + i + 1 ≤ LIMIT)) := by
  intro ts
  induction ts with
  | nil => intro st _; simp [runCalls]
  | cons t rest ih =>
    intro st hts
    have hws : windowStartOf t = ws := hts t (by simp)
    have hrest : ∀ u ∈ rest, windowStartOf u = ws := fun u hu => hts u (by simp [hu])
    have hstep := ih (checkAndRecord key t st).2 hrest
    rw [curCount_after_call key t st ws hws] at hstep
    have hcons : runCalls key (t :: rest) st =
        ((checkAndRecord key t st).1 :: (runCalls key rest (checkAndRecord key t st).2).1,
         (runCalls key rest (checkAndRecord key t st).2).2) := rfl
    rw [hcons]
    simp only [List.map_cons, hstep, checkAndRecord_allowed, hws, List.length_cons,
      List.range_succ_eq_map, List.map_map]
    refine List.cons_eq_cons.mpr ⟨?_, ?_⟩
    · rw [decide_eq_decide]
    · apply List.map_congr_left
      intro i _
      simp only [Function.comp_apply]
      rw [decide_eq_decide]
      omega

theorem decisionsFor_cons_self (key : String) (d : RateLimitDecision)
    (l : List (String × RateLimitDecision)) :
    decisionsFor key ((key, d) :: l) = d :: decisionsFor key l := by
  simp [decisionsFor, List.filter_cons]

theorem decisionsFor_cons_ne (key k : String) (h : ¬k = key) (d : RateLimitDecision)
    (l : List (String × RateLimitDecision)) :
    decisionsFor key ((k, d) :: l) = decisionsFor key l := by
  simp [decisionsFor, List.filter_cons, h]

/-- A `checkAndRecord` call reads and writes only the entry of its own key:
two stores agreeing on that key produce the same decision and the same new
entry for it. -/
theorem checkAndRecord_congr (key : String) (now : Nat) (st1 st2 : LimiterState)
    (h : st1 key = st2 key) :
    (checkAndRecord key now st1).1 = (checkAndRecord key now st2).1 ∧
    (checkAndRecord key now st1).2 key = (checkAndRecord key now st2).2 key := by
  have hcc : curCount st1 key (windowStartOf now) = curCount st2 key (windowStartOf now) := by
    simp [curCount, h]
  refine ⟨?_, ?_⟩
  · rw [checkAndRecord_fst, checkAndRecord_fst, hcc]
  · rw [checkAndRecord_snd_self, checkAndRecord_snd_self, hcc]

/-- Projection invariant: in any mixed run, a key's decisions and its final
store entry are exactly those of the run restricted to its own calls. -/
theorem runSeq_project (key : String) :
    ∀ (seq : List (String × Nat)) (st1 st2 : LimiterState), st1 key = st2 key →
      decisionsFor key (runSeq seq st1).1 =
        decisionsFor key (runSeq (callsFor key seq) st2).1 ∧
      (runSeq seq st1).2 key = (runSeq (callsFor key seq) st2).2 key := by
  intro seq
  induction seq with
  | nil => intro st1 st2 h; exact ⟨rfl, h⟩
  | cons c rest ih =>
    intro st1 st2 h
    obtain ⟨k, t⟩ := c
    have hcons1 : runSeq ((k, t) :: rest) st1 =
        ((k, (checkAndRecord k t st1).1) :: (runSeq rest (checkAndRecord k t st1).2).1,
         (runSeq rest (checkAndRecord k t st1).2).2) := rfl
    by_cases hk : k = key
    · subst hk
      have hfilter : callsFor k ((k, t) :: rest) = (k, t) :: callsFor k rest := by
        simp [callsFor, List.filter_cons]
      have hcr := checkAndRecord_congr k t st1 st2 h
      have hrec := ih (checkAndRecord k t st1).2 (checkAndRecord k t st2).2 hcr.2
      have hcons2 : runSeq ((k, t) :: callsFor k rest) st2 =
          ((k, (checkAndRecord k t st2).1) ::
              (runSeq (callsFor k rest) (checkAndRecord k t st2).2).1,
           (runSeq (callsFor k rest) (checkAndRecord k t st2).2).2) := rfl
      rw [hfilter, hcons1, hcons2]
      refine ⟨?_, hrec.2⟩
      rw [decisionsFor_cons_self, decisionsFor_cons_self, hcr.1, hrec.1]
    · have hfilter : callsFor key ((k, t) :: rest) = callsFor key rest := by
        simp [callsFor, List.filter_cons, hk]
      have hframe : (checkAndRecord k t st1).2 key = st2 key := by
        rw [checkAndRecord_snd_frame k key t st1 (fun he => hk he.symm)]
        exact h
      have hrec := ih (checkAndRecord k t st1).2 st2 hframe
      rw [hfilter, hcons1]
      refine ⟨?_, hrec.2⟩
      rw [decisionsFor_cons_ne key k hk, hrec.1]

/-- Claim C1: for every key and every sequence of `N` `CheckAndRecord` calls
whose times stay inside a single fixed window, exactly `min N LIMIT` calls
return `allowed = true`, and positionally the first `LIMIT` calls are the
allowed ones while the `(LIMIT+1)`-th through `N`-th are denied
(`LIMIT = 60`, `WINDOW = 60` seconds). -/
theorem fixed_window_counts (key : String) (ws : Nat) (ts : List Nat)
    (st : LimiterState) (hfresh : curCount st key ws = 0)
    (hin : ∀ t ∈ ts, windowStartOf t = ws) :
    countAllowed (runCalls key ts st).1 = min ts.length LIMIT ∧
    (runCalls key ts st).1.map RateLimitDecision.allowed =
      (List.range ts.length).map (fun i => decide (i < LIMIT)) := by
  refine ⟨?_, ?_⟩
  · have h := countAllowed_runCalls key ws ts st hin
    rw [hfresh, Nat.sub_zero] at h
    exact h
  · have h := map_allowed_runCalls key ws ts st hin
    rw [hfresh] at h
    rw [h]
    apply List.map_congr_left
    intro i _
    rw [decide_eq_decide]
    omega

theorem fixed_window_counts_witness :
    countAllowed (runCalls "1.2.3.4" (List.replicate 65 0) emptyStore).1 = 60 ∧
    (runCalls "1.2.3.4" (List.replicate 65 0) emptyStore).1.map RateLimitDecision.allowed =
      (List.range 65).map (fun i => decide (i < LIMIT)) := by
  have h := fixed_window_counts "1.2.3.4" 0 (List.replicate 65 0) emptyStore rfl
    (fun t ht => by rw [List.eq_of_mem_replicate ht]; rfl)
  refine ⟨h.1.trans (by decide), ?_⟩
  have h2 := h.2
  simpa using h2

/-- Claim C2: a denied call at time `now` reports a `retryAfterSeconds` that
is the time remaining until the end of the current window
(`windowStartOf now + WINDOW_MS - now` milliseconds) rounded up to the
nearest whole second, and it is always at least 1. -/
theorem retryAfter_ceiling (key : String) (now : Nat) (st : LimiterState)
    (hdenied : (checkAndRecord key now st).1.allowed = false) :
    1 ≤ (checkAndRecord key now st).1.retryAfterSeconds ∧
    windowStartOf now + WINDOW_MS - now ≤
      (checkAndRecord key now st).1.retryAfterSeconds * 1000 ∧
    ((checkAndRecord key now st).1.retryAfterSeconds - 1) * 1000 <
      windowStartOf now + WINDOW_MS - now := by
  by_cases h : curCount st key (windowStartOf now) + 1 ≤ LIMIT
  · rw [checkAndRecord_fst, if_pos h] at hdenied
    simp at hdenied
  · rw [checkAndRecord_fst, if_neg h]
    dsimp only
    simp only [windowStartOf, WINDOW_MS, WINDOW]
    omega

theorem retryAfter_ceiling_witness :
    (1 ≤ (checkAndRecord "1.2.3.4" 30500 fullWindowStore).1.retryAfterSeconds ∧
      windowStartOf 30500 + WINDOW_MS - 30500 ≤
        (checkAndRecord "1.2.3.4" 30500 fullWindowStore).1.retryAfterSeconds * 1000 ∧
      ((checkAndRecord "1.2.3.4" 30500 fullWindowStore).1.retryAfterSeconds - 1) * 1000 <
        windowStartOf 30500 + WINDOW_MS - 30500) ∧
    (checkAndRecord "1.2.3.4" 30500 fullWindowStore).1.retryAfterSeconds = 30 :=
  ⟨retryAfter_ceiling "1.2.3.4" 30500 fullWindowStore (by decide), by decide⟩

/-- Claim C7: for distinct keys `k1 ≠ k2` and any interleaved sequence of
calls for the two keys, each key's final store entry and its sequence of
decisions coincide with those of the run restricted to its own calls — the
calls for the other key leave them unchanged. -/
theorem key_independence (k1 k2 : String) (seq : List (String × Nat))
    (st : LimiterState) (_hne : k1 ≠ k2)
    (_hseq : ∀ c ∈ seq, c.1 = k1 ∨ c.1 = k2) :
    ((runSeq seq st).2 k1 = (runSeq (callsFor k1 seq) st).2 k1 ∧
      decisionsFor k1 (runSeq seq st).1 =
        decisionsFor k1 (runSeq (callsFor k1 seq) st).1) ∧
    ((runSeq seq st).2 k2 = (runSeq (callsFor k2 seq) st).2 k2 ∧
      decisionsFor k2 (runSeq seq st).1 =
        decisionsFor k2 (runSeq (callsFor k2 seq) st).1) :=
  ⟨⟨(runSeq_project k1 seq st st rfl).2, (runSeq_project k1 seq st st rfl).1⟩,
   ⟨(runSeq_project k2 seq st st rfl).2, (runSeq_project k2 seq st st rfl).1⟩⟩

theorem key_independence_witness :
    (((runSeq mixedSeq emptyStore).2 "a" = (runSeq (callsFor "a" mixedSeq) emptyStore).2 "a" ∧
      decisionsFor "a" (runSeq mixedSeq emptyStore).1 =
        decisionsFor "a" (runSeq (callsFor "a" mixedSeq) emptyStore).1) ∧
     ((runSeq mixedSeq emptyStore).2 "b" = (runSeq (callsFor "b" mixedSeq) emptyStore).2 "b" ∧
      decisionsFor "b" (runSeq mixedSeq emptyStore).1 =
        decisionsFor "b" (runSeq (callsFor "b" mixedSeq) emptyStore).1)) :=
  key_independence "a" "b" mixedSeq emptyStore (by decide) (by decide)

/-- Claim C8: any serialization of `C > LIMIT` same-key calls within one
window (the spec requires concurrent same-key calls to serialize their
read-increment-write atomically, so every concurrent execution is equivalent
to such an order) yields exactly `LIMIT` allowed and `C - LIMIT` denied
decisions, whatever the order of the calls. -/
theorem concurrent_overload_exact (key : String) (ws : Nat) (ts : List Nat)
    (st : LimiterState) (hfresh : curCount st key ws = 0)
    (hover : LIMIT < ts.length) (hin : ∀ t ∈ ts, windowStartOf t = ws) :
    countAllowed (runCalls key ts st).1 = LIMIT ∧
    countDenied (runCalls key ts st).1 = ts.length - LIMIT := by
  have h := countAllowed_runCalls key ws ts st hin
  rw [hfresh, Nat.sub_zero] at h
  have hlen := runCalls_length key ts st
  have hsum := countAllowed_add_countDenied (runCalls key ts st).1
  constructor <;> omega

theorem concurrent_overload_exact_witness :
    countAllowed (runCalls "5.6.7.8" (List.replicate 70 0) emptyStore).1 = 60 ∧
    countDenied (runCalls "5.6.7.8" (List.replicate 70 0) emptyStore).1 = 10 := by
  have h := concurrent_overload_exact "5.6.7.8" 0 (List.replicate 70 0) emptyStore rfl
    (by decide) (fun t ht => by rw [List.eq_of_mem_replicate ht]; rfl)
  exact ⟨h.1.trans (by decide), h.2.trans (by decide)⟩

/-- Claim C6: every response of the handler — allowed, denied, preflight,
405, 404 or debug — carries the CORS header
`Access-Control-Allow-Origin: *`; in particular a denied (429) response
never omits it. -/
theorem cors_on_every_response (r : WorkerRequest) (now : Nat) (st : LimiterState) :
    (fetch r now st).response.accessControlAllowOrigin = some "*" := by
  simp only [fetch]
  repeat' split
  all_goals rfl

/-- Claim C10: requests that are not `GET /` — CORS preflights, non-GET
methods, `/debug`, unknown paths — are answered without invoking the rate
limiter and leave the limiter store untouched. -/
theorem limiter_untouched_off_route (r : WorkerRequest) (now : Nat) (st : LimiterState)
    (h : r.method ≠ "GET" ∨ r.path ≠ "/") :
    (fetch r now st).limiterCalls = 0 ∧ (fetch r now st).state = st := by
  unfold fetch
  by_cases ho : r.method = "OPTIONS"
  · rw [if_pos ho]; exact ⟨rfl, rfl⟩
  · rw [if_neg ho]
    by_cases hg : r.method ≠ "GET"
    · rw [if_pos hg]; exact ⟨rfl, rfl⟩
    · rw [if_neg hg]
      by_cases hd : r.path = "/debug"
      · rw [if_pos hd]; exact ⟨rfl, rfl⟩
      · rw [if_neg hd]
        have hp : r.path ≠ "/" := by
          rcases h with h | h
          · exact (hg h).elim
          · exact h
        rw [if_pos hp]
        exact ⟨rfl, rfl⟩

theorem limiter_untouched_off_route_witness :
    (fetch optionsRequest 0 emptyStore).limiterCalls = 0 ∧
    (fetch optionsRequest 0 emptyStore).state = emptyStore :=
  limiter_untouched_off_route optionsRequest 0 emptyStore (Or.inl (by decide))

/-- Claim C9: a root GET request with no extractable client IP skips the rate
limiter entirely — no limiter call, store unchanged — and still gets the
normal 200 success response with `ip` set to null; since the store is left
unchanged, any volume of such requests is never rate limited. -/
theorem null_ip_no_rate_limit (r : WorkerRequest) (now : Nat) (st : LimiterState)
    (hm : r.method = "GET") (hp : r.path = "/") (hip : r.extractedIp = none) :
    (fetch r now st).limiterCalls = 0 ∧ (fetch r now st).state = st ∧
    (fetch r now st).response =
      createIpSuccessResponse none (getCountry r) (getCity r) (getRegion r) now ∧
    (fetch r now st).response.status = 200 := by
  have hfetch : fetch r now st =
      ⟨createIpSuccessResponse none (getCountry r) (getCity r) (getRegion r) now, st, 0⟩ := by
    unfold fetch
    rw [if_neg (by rw [hm]; decide), if_neg (by rw [hm]; decide),
      if_neg (by rw [hp]; decide), if_neg (by rw [hp]; decide)]
    simp only [getClientIp, hip, jsTruthy]
    rfl
  rw [hfetch]
  exact ⟨rfl, rfl, rfl, rfl⟩

theorem null_ip_no_rate_limit_witness :
    (fetch nullIpRequest 0 emptyStore).limiterCalls = 0 ∧
    (fetch nullIpRequest 0 emptyStore).state = emptyStore ∧
    (fetch nullIpRequest 0 emptyStore).response =
      createIpSuccessResponse none (getCountry nullIpRequest) (getCity nullIpRequest)
        (getRegion nullIpRequest) 0 ∧
    (fetch nullIpRequest 0 emptyStore).response.status = 200 :=
  null_ip_no_rate_limit nullIpRequest 0 emptyStore rfl rfl rfl

/-- Claim C5: for an admitted-candidate request (root GET with a truthy
extracted key `s`), the handler makes exactly one limiter call, for that key,
and its final store is that call's updated store; the 200 success response is
produced exactly when that call returned `allowed = true`. -/
theorem limiter_once_before_success (r : WorkerRequest) (now : Nat) (st : LimiterState)
    (s : String) (hm : r.method = "GET") (hp : r.path = "/")
    (hip : r.extractedIp = some s) (hs : s ≠ "") :
    (fetch r now st).limiterCalls = 1 ∧
    (fetch r now st).state = (checkAndRecord s now st).2 ∧
    ((fetch r now st).response.status = 200 ↔
      (checkAndRecord s now st).1.allowed = true) := by
  have hfetch : fetch r now st =
      if (checkAndRecord s now st).1.allowed then
        ⟨createIpSuccessResponse (some s) (getCountry r) (getCity r) (getRegion r) now,
          (checkAndRecord s now st).2, 1⟩
      else ⟨createRateLimitResponse 60 now, (checkAndRecord s now st).2, 1⟩ := by
    unfold fetch
    rw [if_neg (by rw [hm]; decide), if_neg (by rw [hm]; decide),
      if_neg (by rw [hp]; decide), if_neg (by rw [hp]; decide)]
    simp only [getClientIp, hip, jsTruthy]
    rw [if_pos (by simpa using hs)]
    rfl
  rw [hfetch]
  by_cases hal : (checkAndRecord s now st).1.allowed = true
  · rw [if_pos hal]
    exact ⟨rfl, rfl, by simp [createIpSuccessResponse, hal]⟩
  · rw [if_neg hal]
    refine ⟨rfl, rfl, ?_⟩
    simp [createRateLimitResponse, hal]

theorem limiter_once_before_success_witness :
    (fetch sampleGetRequest 0 emptyStore).limiterCalls = 1 ∧
    (fetch sampleGetRequest 0 emptyStore).state = (checkAndRecord "1.2.3.4" 0 emptyStore).2 ∧
    ((fetch sampleGetRequest 0 emptyStore).response.status = 200 ↔
      (checkAndRecord "1.2.3.4" 0 emptyStore).1.allowed = true) :=
  limiter_once_before_success sampleGetRequest 0 emptyStore "1.2.3.4" rfl rfl rfl (by decide)

/-- Claim C3 (amended): the router has no 500 (internal error) path and
surfaces no `InvalidKey` signal: every response's status differs from 500,
and a root GET request whose extracted key is the empty string — a key
failing the spec's validity constraint — skips the limiter entirely and
receives the normal 200 success response; keys are never length-checked. -/
theorem no_invalid_key_path (r : WorkerRequest) (now : Nat) (st : LimiterState) :
    (fetch r now st).response.status ≠ 500 ∧
    (r.method = "GET" → r.path = "/" → r.extractedIp = some "" →
      (fetch r now st).response.status = 200 ∧ (fetch r now st).limiterCalls = 0) := by
  constructor
  · simp only [fetch]
    repeat' split
    all_goals simp [handleOptions, createMethodNotAllowedResponse, createDebugResponse,
      createNotFoundResponse, createIpSuccessResponse, createRateLimitResponse]
  · intro hm hp hip
    have hfetch : fetch r now st =
        ⟨createIpSuccessResponse (some "") (getCountry r) (getCity r) (getRegion r) now,
          st, 0⟩ := by
      unfold fetch
      rw [if_neg (by rw [hm]; decide), if_neg (by rw [hm]; decide),
        if_neg (by rw [hp]; decide), if_neg (by rw [hp]; decide)]
      simp only [getClientIp, hip, jsTruthy]
      rw [if_neg (by decide)]
    rw [hfetch]
    exact ⟨rfl, rfl⟩

/-- Claim C3 fails on the code as stated: this concrete root GET request has
the empty string as extracted key — a key failing the spec's basic validity
constraints — yet the router answers with the 200 success response and no
limiter call, not with an internal error (HTTP 500). -/
theorem empty_key_gets_success :
    (fetch emptyKeyRequest 7 emptyStore).response.status = 200 ∧
    ¬(fetch emptyKeyRequest 7 emptyStore).response.status = 500 ∧
    (fetch emptyKeyRequest 7 emptyStore).limiterCalls = 0 := by
  refine ⟨rfl, by decide, rfl⟩

theorem no_invalid_key_path_witness :
    (fetch emptyKeyRequest 11 emptyStore).response.status = 200 ∧
    (fetch emptyKeyRequest 11 emptyStore).limiterCalls = 0 :=
  (no_invalid_key_path emptyKeyRequest 11 emptyStore).2 rfl rfl rfl

/-- Claim C4 (amended): every rate-limited response has HTTP status 429, a
JSON `ErrorResponse` body whose `error` message mentions the numeric limit
(60) and the word "minute" and whose `timestamp` is the ISO-8601 UTC
rendering of the current time, the CORS header, and a `Retry-After` header
carrying the constant 60 seconds (the full window length) rather than the
limiter decision's per-call remaining time. -/
theorem rate_limit_response_format (r : WorkerRequest) (now : Nat) (st : LimiterState)
    (h429 : (fetch r now st).response.status = 429) :
    (fetch r now st).response = createRateLimitResponse 60 now ∧
    (fetch r now st).response.retryAfter = some 60 ∧
    (fetch r now st).response.contentType = some "application/json" ∧
    (fetch r now st).response.accessControlAllowOrigin = some "*" ∧
    (fetch r now st).response.body =
      ResponseBody.errorBody
        "Rate limit exceeded. Maximum 60 requests per minute allowed."
        (toISOString now) ∧
    containsSubstr "Rate limit exceeded. Maximum 60 requests per minute allowed."
      "60" = true ∧
    containsSubstr "Rate limit exceeded. Maximum 60 requests per minute allowed."
      "minute" = true := by
  have hresp : (fetch r now st).response = createRateLimitResponse 60 now := by
    revert h429
    simp only [fetch]
    repeat' split
    all_goals intro h429
    all_goals first
      | rfl
      | simp [handleOptions, createMethodNotAllowedResponse, createDebugResponse,
          createNotFoundResponse, createIpSuccessResponse] at h429
  exact ⟨hresp, by rw [hresp]; rfl, by rw [hresp]; rfl, by rw [hresp]; rfl,
    by rw [hresp]; rfl, by decide, by decide⟩

theorem rate_limit_response_format_witness :
    (fetch sampleGetRequest 30500 fullWindowStore).response =
      createRateLimitResponse 60 30500 ∧
    (fetch sampleGetRequest 30500 fullWindowStore).response.retryAfter = some 60 :=
  ⟨(rate_limit_response_format sampleGetRequest 30500 fullWindowStore (by decide)).1,
   (rate_limit_response_format sampleGetRequest 30500 fullWindowStore (by decide)).2.1⟩

/-- Claim C4 fails on the code as stated: at this concrete denied request the
limiter decision's retry hint is 30 seconds (the time left in the window),
but the response's `Retry-After` header carries the constant 60 — the header
does not carry `retryAfterSeconds`. -/
theorem retry_after_not_decision_hint :
    (fetch sampleGetRequest 30500 fullWindowStore).response.status = 429 ∧
    (checkAndRecord "1.2.3.4" 30500 fullWindowStore).1.allowed = false ∧
    (checkAndRecord "1.2.3.4" 30500 fullWindowStore).1.retryAfterSeconds = 30 ∧
    (fetch sampleGetRequest 30500 fullWindowStore).response.retryAfter = some 60 ∧
    ¬(fetch sampleGetRequest 30500 fullWindowStore).response.retryAfter =
        some (checkAndRecord "1.2.3.4" 30500 fullWindowStore).1.retryAfterSeconds := by
  exact ⟨by decide, by decide, by decide, by decide, by decide⟩

end GetIp
